import Mathlib

/-!
Verification development for the jeevan-ayurvedic dashboard: a shallow
embedding of the lead/order lifecycle handlers, the permission checker, the
in-memory rate limiter and the audit recorder, with theorems settling the
specification's claims about them.  Database tables are embedded as lists,
Prisma queries as list operations, and request handlers as pure functions
from an explicit system state to a response together with the new state.
JavaScript numbers used for money are embedded as rationals; epoch-millisecond
timestamps as naturals.  Address columns that no claim mentions are projected
away; every field a claim touches is carried through verbatim.
-/

namespace JeevanAyurvedic

/-! ### Enumerations from the Prisma schema -/

inductive Role where
  | ADMIN
  | EMPLOYEE
deriving DecidableEq, Repr

inductive LeadStatus where
  | NEW
  | CONTACTED
  | QUALIFIED
  | CONVERTED
  | LOST
deriving DecidableEq, Repr

inductive LeadPriority where
  | LOW
  | MEDIUM
  | HIGH
  | URGENT
deriving DecidableEq, Repr

inductive LeadSource where
  | WHATSAPP
  | SOCIAL_MEDIA
  | WEBSITE
  | REFERRAL
  | PHONE_CALL
  | OTHER
deriving DecidableEq, Repr

inductive OrderStatus where
  | PENDING
  | PAYMENT_RECEIVED
  | DISPATCHED
  | IN_TRANSIT
  | DELIVERED
  | PAID
  | RETURNED
  | CANCELLED
deriving DecidableEq, Repr

inductive PaymentStatus where
  | PENDING
  | PARTIAL
  | FULL
  | CUSTOM
  | COMPLETED
deriving DecidableEq, Repr

inductive PaymentType where
  | INITIAL
  | PARTIAL
deriving DecidableEq, Repr

inductive AuditAction where
  | CREATE
  | UPDATE
  | DELETE
  | ASSIGN
deriving DecidableEq, Repr

/-! ### Rate limiter (`lib/rate-limit.ts`)

The process-global `rateLimitMap` becomes an explicit association list that the
function threads through. -/

structure RateRecord where
  count : Nat
  resetTime : Nat
deriving DecidableEq, Repr

abbrev RateMap := List (String × RateRecord)

def RateMap.get? (m : RateMap) (ip : String) : Option RateRecord :=
  (m.find? (fun e => e.1 == ip)).map (fun e => e.2)

def RateMap.set (m : RateMap) (ip : String) (r : RateRecord) : RateMap :=
  if m.any (fun e => e.1 == ip) then
    m.map (fun e => if e.1 == ip then (ip, r) else e)
  else
    m ++ [(ip, r)]

/-- `rateLimit(ip, limit, windowMs)`: fixed-window counter.  Returns the
allow/deny flag together with the updated map (the TypeScript mutates the
global map in place). -/
def rateLimit (m : RateMap) (ip : String) (limit windowMs now : Nat) :
    Bool × RateMap :=
  match RateMap.get? m ip with
  | none => (true, RateMap.set m ip ⟨1, now + windowMs⟩)
  | some record =>
    if now > record.resetTime then
      (true, RateMap.set m ip ⟨1, now + windowMs⟩)
    else if record.count ≥ limit then
      (false, m)
    else
      (true, RateMap.set m ip ⟨record.count + 1, record.resetTime⟩)

/-! ### Users and the permission checker (`lib/permissions.ts`) -/

structure Permission where
  module : String
  action : String
deriving DecidableEq, Repr

structure RoleDef where
  permissions : List Permission
deriving DecidableEq, Repr

structure RoleAssignment where
  role : RoleDef
deriving DecidableEq, Repr

structure User where
  id : String
  name : String
  role : Role
  isActive : Bool
  roleAssignments : List RoleAssignment
deriving DecidableEq, Repr

/-- `hasPermission(userId, module, action)`.  The Prisma user lookup with its
role-assignment joins becomes a `find?` over the users table. -/
def hasPermission (users : List User) (userId module action : String) : Bool :=
  match users.find? (fun u => u.id == userId) with
  | none => false
  | some user =>
    if user.role = Role.ADMIN then true
    else
      user.roleAssignments.any (fun ra =>
        ra.role.permissions.any (fun rp =>
          rp.module == module && rp.action == action))

/-- `requirePermission`: throws `Error('Insufficient permissions')` when the
check fails; the throw is embedded as `Except.error`. -/
def requirePermission (users : List User) (userId module action : String) :
    Except String Unit :=
  if hasPermission users userId module action then Except.ok ()
  else Except.error "Insufficient permissions"

/-! ### Audit recorder (`lib/audit.ts`) -/

structure AuditLog where
  userId : String
  action : AuditAction
  entityType : String
  entityId : String
  changes : Option String
  description : Option String
deriving DecidableEq, Repr

/-- The underlying `prisma.auditLog.create` call; `storeFails` models the
store rejecting the write. -/
def auditStoreCreate (storeFails : Bool) (logs : List AuditLog)
    (entry : AuditLog) : Except String (List AuditLog) :=
  if storeFails then Except.error "Failed to create audit log"
  else Except.ok (logs ++ [entry])

/-- `createAuditLog`: wraps the store write in try/catch and swallows any
failure, returning the table unchanged instead of propagating the error. -/
def createAuditLog (storeFails : Bool) (logs : List AuditLog)
    (entry : AuditLog) : List AuditLog :=
  match auditStoreCreate storeFails logs entry with
  | Except.ok newLogs => newLogs
  | Except.error _ => logs

/-! ### Notification dispatcher (`lib/notifications.ts`) -/

structure Notification where
  userId : String
  type : String
  title : String
  message : String
  entityType : Option String
  entityId : Option String
deriving DecidableEq, Repr

def createNotification (notifs : List Notification) (n : Notification) :
    List Notification :=
  notifs ++ [n]

/-! ### Entities -/

structure Lead where
  id : String
  name : String
  phone : String
  email : Option String
  disease : Option String
  vppAmount : Option ℚ
  source : LeadSource
  status : LeadStatus
  priority : LeadPriority
  assignedTo : String
  notes : Option String
  createdAt : Nat
deriving DecidableEq, Repr

structure Order where
  id : String
  orderNumber : String
  leadId : String
  patientName : String
  patientId : String
  totalAmount : ℚ
  vppAmount : ℚ
  receivedAmount : ℚ
  paymentStatus : PaymentStatus
  paymentMethod : Option String
  moneyOrderNumber : Option String
  status : OrderStatus
  assignedTo : String
  bookedBy : String
  dispatchedBy : Option String
  dispatchDate : Option Nat
  trackingId : Option String
  courierService : Option String
  weight : Option ℚ
  deliveredDate : Option Nat
  returnDate : Option Nat
  returnReason : Option String
  notes : Option String
  createdAt : Nat
deriving DecidableEq, Repr

structure Payment where
  orderId : String
  amount : ℚ
  paymentType : PaymentType
  paymentMethod : String
  referenceNumber : Option String
  receivedBy : String
deriving DecidableEq, Repr

/-- The database tables together with the rate-limiter's process memory. -/
structure Db where
  users : List User
  leads : List Lead
  orders : List Order
  payments : List Payment
  auditLogs : List AuditLog
  notifications : List Notification
deriving DecidableEq, Repr

/-- `session.user` as the handlers read it from the JWT. -/
structure Session where
  userId : String
  userName : Option String
  role : Role
deriving DecidableEq, Repr

/-- A handler response: either a JSON value with its HTTP status, or an error
payload with its status. -/
inductive ApiResult (α : Type) where
  | ok (status : Nat) (value : α)
  | err (status : Nat) (message : String)
deriving DecidableEq, Repr

/-! ### Order creation: `POST /api/orders` -/

/-- The body accepted by `orderSchema` (`zod`), monetary and payment fields.
`assignedTo` is read off the raw body (only honoured for ADMIN callers). -/
structure OrderCreateBody where
  leadId : String
  receivedAmount : ℚ
  paymentStatus : PaymentStatus
  paymentMethod : Option String
  moneyOrderNumber : Option String
  totalAmount : ℚ
  vppAmount : ℚ
  notes : Option String
  assignedTo : Option String
deriving DecidableEq, Repr

/-- `orderSchema.parse` succeeds: `leadId` nonempty, amounts nonnegative, and
`paymentStatus` drawn from the creation enum, which omits `COMPLETED`. -/
def orderSchemaOk (b : OrderCreateBody) : Bool :=
  decide (1 ≤ b.leadId.length) && decide (0 ≤ b.receivedAmount) &&
    decide (0 ≤ b.totalAmount) && decide (0 ≤ b.vppAmount) &&
    decide (b.paymentStatus ≠ PaymentStatus.COMPLETED)

/-- Left-pad a decimal numeral to three digits (`padStart(3, '0')`). -/
def pad3 (n : Nat) : String :=
  let s := Nat.repr n
  if 3 ≤ s.length then s else String.mk (List.replicate (3 - s.length) '0') ++ s

/-- `generateOrderNumber`: `'G'` + last six digits of `Date.now()` + a
three-digit random.  The two nondeterministic draws become arguments. -/
def generateOrderNumber (ts rand : Nat) : String :=
  "G" ++ (Nat.repr ts).takeRight 6 ++ pad3 (rand % 1000)

def orderNumberExists (orders : List Order) (n : String) : Bool :=
  orders.any (fun o => o.orderNumber == n)

/-- The collision-retry loop: generate a candidate, re-generate while the
number collides with an existing order.  The successive `(timestamp, random)`
draws become an input list; `none` means every supplied draw collided (the
source loop would still be running). -/
def pickOrderNumber (orders : List Order) : List (Nat × Nat) → Option String
  | [] => none
  | (ts, rand) :: rest =>
    let candidate := generateOrderNumber ts rand
    if orderNumberExists orders candidate then pickOrderNumber orders rest
    else some candidate

/-- `POST /api/orders` (lead → order conversion).  Arguments beyond the state:
the session, client ip and current time, the order-number draws, the fresh id
Prisma would mint for the new order, and whether the audit store fails. -/
def ordersPOST (session : Option Session) (ip : String) (now : Nat)
    (draws : List (Nat × Nat)) (newOrderId : String) (auditFails : Bool)
    (body : OrderCreateBody) (rl : RateMap) (db : Db) :
    Option (ApiResult Order × RateMap × Db) :=
  match session with
  | none => some (ApiResult.err 401 "Unauthorized", rl, db)
  | some sess =>
    let rlRes := rateLimit rl ip 100 900000 now
    if rlRes.1 then
      let rl' := rlRes.2
      if orderSchemaOk body then
        match db.leads.find? (fun l => l.id == body.leadId) with
        | none => some (ApiResult.err 404 "Lead not found", rl', db)
        | some lead =>
          let assignedTo :=
            if sess.role = Role.ADMIN then body.assignedTo.getD sess.userId
            else sess.userId
          match pickOrderNumber db.orders draws with
          | none => none
          | some orderNumber =>
            let order : Order :=
              { id := newOrderId
                orderNumber := orderNumber
                leadId := body.leadId
                patientName := lead.name
                patientId := orderNumber
                totalAmount := body.totalAmount
                vppAmount := body.vppAmount
                receivedAmount := body.receivedAmount
                paymentStatus := body.paymentStatus
                paymentMethod := body.paymentMethod
                moneyOrderNumber := body.moneyOrderNumber
                status := OrderStatus.PENDING
                assignedTo := assignedTo
                bookedBy := sess.userId
                dispatchedBy := none
                dispatchDate := none
                trackingId := none
                courierService := none
                weight := none
                deliveredDate := none
                returnDate := none
                returnReason := none
                notes := body.notes
                createdAt := now }
            let orders' := db.orders ++ [order]
            let payments' :=
              if 0 < body.receivedAmount then
                db.payments ++
                  [{ orderId := newOrderId
                     amount := body.receivedAmount
                     paymentType := PaymentType.INITIAL
                     paymentMethod := body.paymentMethod.getD "MONEY_ORDER"
                     referenceNumber := body.moneyOrderNumber
                     receivedBy := sess.userId }]
              else db.payments
            let leads' := db.leads.map (fun l =>
              if l.id == body.leadId then
                { l with status := LeadStatus.CONVERTED }
              else l)
            let logs' := createAuditLog auditFails db.auditLogs
              { userId := sess.userId
                action := AuditAction.CREATE
                entityType := "Order"
                entityId := newOrderId
                changes := some orderNumber
                description := some ("Created order from lead: " ++ lead.name) }
            let notifs1 :=
              if assignedTo ≠ sess.userId then
                createNotification db.notifications
                  { userId := assignedTo
                    type := "ORDER_CREATED"
                    title := "New Order Created"
                    message := "A new order " ++ orderNumber ++
                      " has been created from lead: " ++ lead.name
                    entityType := some "Order"
                    entityId := some newOrderId }
              else db.notifications
            let notifs2 :=
              if sess.role = Role.EMPLOYEE then
                (db.users.filter (fun u =>
                    decide (u.role = Role.ADMIN) && u.isActive)).foldl
                  (fun acc admin => createNotification acc
                    { userId := admin.id
                      type := "ORDER_CREATED"
                      title := "New Order Created"
                      message := "Employee " ++ sess.userName.getD "" ++
                        " created order " ++ orderNumber ++
                        " from lead: " ++ lead.name
                      entityType := some "Order"
                      entityId := some newOrderId })
                  notifs1
              else notifs1
            some (ApiResult.ok 201 order, rl',
              { db with
                orders := orders'
                payments := payments'
                leads := leads'
                auditLogs := logs'
                notifications := notifs2 })
      else some (ApiResult.err 400 "Validation error", rl', db)
    else some (ApiResult.err 429 "Too many requests", rlRes.2, db)

/-! ### Order update: `PATCH /api/orders/[id]` -/

/-- The partial body accepted by `orderUpdateSchema`: every field optional,
`some` marking presence (an absent field is `undefined` and Prisma leaves the
column untouched). -/
structure OrderUpdateBody where
  status : Option OrderStatus
  dispatchDate : Option Nat
  trackingId : Option String
  courierService : Option String
  weight : Option ℚ
  receivedAmount : Option ℚ
  paymentStatus : Option PaymentStatus
  paymentMethod : Option String
  moneyOrderNumber : Option String
  deliveredDate : Option Nat
  returnDate : Option Nat
  returnReason : Option String
  notes : Option String
deriving DecidableEq, Repr

/-- `orderUpdateSchema.parse` succeeds: the `z.number().min(0)` fields are
nonnegative when present. -/
def orderUpdateSchemaOk (b : OrderUpdateBody) : Bool :=
  (match b.weight with
   | some w => decide (0 ≤ w)
   | none => true) &&
  (match b.receivedAmount with
   | some r => decide (0 ≤ r)
   | none => true)

/-- `PATCH /api/orders/[id]`: dispatch stamping, payment-delta recording and
the field-wise update. -/
def ordersPATCH (session : Option Session) (ip : String) (now : Nat)
    (auditFails : Bool) (orderId : String) (body : OrderUpdateBody)
    (rl : RateMap) (db : Db) : ApiResult Order × RateMap × Db :=
  match session with
  | none => (ApiResult.err 401 "Unauthorized", rl, db)
  | some sess =>
    let rlRes := rateLimit rl ip 100 900000 now
    if rlRes.1 then
      let rl' := rlRes.2
      match db.orders.find? (fun o => o.id == orderId) with
      | none => (ApiResult.err 404 "Order not found", rl', db)
      | some existingOrder =>
        if sess.role = Role.EMPLOYEE ∧ existingOrder.assignedTo ≠ sess.userId
        then (ApiResult.err 403 "Forbidden", rl', db)
        else if orderUpdateSchemaOk body then
          -- `updateData = { ...data }` plus the dispatch branch
          let dispatchStamp :=
            body.status = some OrderStatus.DISPATCHED ∧
              existingOrder.dispatchedBy = none
          let dispatchedBy' :=
            if dispatchStamp then some sess.userId
            else existingOrder.dispatchedBy
          let dispatchDate' :=
            match body.dispatchDate with
            | some d => some d
            | none =>
              if dispatchStamp then some now else existingOrder.dispatchDate
          -- the payment branch: `data.receivedAmount` truthy (present and
          -- nonzero) and strictly above the stored amount
          let payments' :=
            match body.receivedAmount with
            | some ra =>
              if decide (ra ≠ 0) && decide (existingOrder.receivedAmount < ra)
              then
                db.payments ++
                  [{ orderId := orderId
                     amount := ra - existingOrder.receivedAmount
                     paymentType :=
                       if 0 < existingOrder.receivedAmount then
                         PaymentType.PARTIAL
                       else PaymentType.INITIAL
                     paymentMethod :=
                       (body.paymentMethod.getD
                         (existingOrder.paymentMethod.getD "MONEY_ORDER"))
                     referenceNumber :=
                       match body.moneyOrderNumber with
                       | some r => some r
                       | none => existingOrder.moneyOrderNumber
                     receivedBy := sess.userId }]
              else db.payments
            | none => db.payments
          let updated : Order :=
            { existingOrder with
              status := body.status.getD existingOrder.status
              dispatchDate := dispatchDate'
              dispatchedBy := dispatchedBy'
              trackingId :=
                match body.trackingId with
                | some t => some t
                | none => existingOrder.trackingId
              courierService :=
                match body.courierService with
                | some c => some c
                | none => existingOrder.courierService
              weight :=
                match body.weight with
                | some w => some w
                | none => existingOrder.weight
              receivedAmount :=
                body.receivedAmount.getD existingOrder.receivedAmount
              paymentStatus :=
                body.paymentStatus.getD existingOrder.paymentStatus
              paymentMethod :=
                match body.paymentMethod with
                | some p => some p
                | none => existingOrder.paymentMethod
              moneyOrderNumber :=
                match body.moneyOrderNumber with
                | some m => some m
                | none => existingOrder.moneyOrderNumber
              deliveredDate :=
                match body.deliveredDate with
                | some d => some d
                | none => existingOrder.deliveredDate
              returnDate :=
                match body.returnDate with
                | some d => some d
                | none => existingOrder.returnDate
              returnReason :=
                match body.returnReason with
                | some r => some r
                | none => existingOrder.returnReason
              notes :=
                match body.notes with
                | some n => some n
                | none => existingOrder.notes }
          let orders' := db.orders.map (fun o =>
            if o.id == orderId then updated else o)
          let logs' := createAuditLog auditFails db.auditLogs
            { userId := sess.userId
              action := AuditAction.UPDATE
              entityType := "Order"
              entityId := existingOrder.id
              changes := none
              description := some ("Updated order: " ++ updated.orderNumber) }
          let statusChanged : Bool :=
            match body.status with
            | some st => decide (st ≠ existingOrder.status)
            | none => false
          let notifs1 :=
            if statusChanged && decide (updated.assignedTo ≠ sess.userId) then
              createNotification db.notifications
                { userId := updated.assignedTo
                  type := "ORDER_STATUS_CHANGED"
                  title := "Order Status Updated"
                  message := "Order " ++ updated.orderNumber ++
                    " status changed"
                  entityType := some "Order"
                  entityId := some updated.id }
            else db.notifications
          let notifs2 :=
            if statusChanged && decide (sess.role = Role.EMPLOYEE) then
              (db.users.filter (fun u =>
                  decide (u.role = Role.ADMIN) && u.isActive)).foldl
                (fun acc admin => createNotification acc
                  { userId := admin.id
                    type := "ORDER_STATUS_CHANGED"
                    title := "Order Status Updated"
                    message := "Order " ++ updated.orderNumber ++
                      " status changed"
                    entityType := some "Order"
                    entityId := some updated.id })
                notifs1
            else notifs1
          let notifs3 :=
            if statusChanged &&
                decide (body.status = some OrderStatus.DISPATCHED) then
              createNotification notifs2
                { userId := updated.assignedTo
                  type := "ORDER_DISPATCHED"
                  title := "Order Dispatched"
                  message := "Order " ++ updated.orderNumber ++
                    " has been dispatched"
                  entityType := some "Order"
                  entityId := some updated.id }
            else notifs2
          let payNotify : Bool :=
            match body.receivedAmount with
            | some ra =>
              decide (ra ≠ 0) && decide (existingOrder.receivedAmount < ra) &&
                decide (updated.assignedTo ≠ sess.userId)
            | none => false
          let notifs4 :=
            if payNotify then
              createNotification notifs3
                { userId := updated.assignedTo
                  type := "PAYMENT_RECEIVED"
                  title := "Payment Received"
                  message := "Payment received for order " ++
                    updated.orderNumber
                  entityType := some "Order"
                  entityId := some updated.id }
            else notifs3
          (ApiResult.ok 200 updated, rl',
            { db with
              orders := orders'
              payments := payments'
              auditLogs := logs'
              notifications := notifs4 })
        else (ApiResult.err 400 "Validation error", rl', db)
    else (ApiResult.err 429 "Too many requests", rlRes.2, db)

/-! ### Lead listing: `GET /api/leads` -/

/-- Substring test backing Prisma's `{ contains: search }`. -/
def strContains (s sub : String) : Bool :=
  decide (sub.toList <:+: s.toList)

/-- Query parameters of the lead listing (already decoded; `none` = absent). -/
structure LeadsQuery where
  status : Option LeadStatus
  priority : Option LeadPriority
  source : Option LeadSource
  startDate : Option Nat
  endDate : Option Nat
  search : Option String
  page : Nat
  limit : Nat
deriving DecidableEq, Repr

/-- The `where` object the handler assembles: employee isolation plus one
clause per present query parameter.  No clause ever excludes `CONVERTED`. -/
def leadMatchesWhere (role : Role) (uid : String) (q : LeadsQuery)
    (l : Lead) : Bool :=
  (if role = Role.EMPLOYEE then l.assignedTo == uid else true) &&
  (match q.status with
   | some st => decide (l.status = st)
   | none => true) &&
  (match q.priority with
   | some p => decide (l.priority = p)
   | none => true) &&
  (match q.source with
   | some s => decide (l.source = s)
   | none => true) &&
  (match q.startDate with
   | some d => decide (d ≤ l.createdAt)
   | none => true) &&
  (match q.endDate with
   | some d => decide (l.createdAt ≤ d)
   | none => true) &&
  (match q.search with
   | some s =>
     strContains l.name s || strContains l.phone s ||
       (l.email.map (fun e => strContains e s)).getD false ||
       (l.disease.map (fun e => strContains e s)).getD false
   | none => true)

/-- `orderBy: { createdAt: 'desc' }` as an insertion sort on `createdAt`. -/
def insertByCreatedAtDesc (x : Lead) : List Lead → List Lead
  | [] => [x]
  | y :: ys =>
    if x.createdAt ≤ y.createdAt then y :: insertByCreatedAtDesc x ys
    else x :: y :: ys

def sortByCreatedAtDesc (ls : List Lead) : List Lead :=
  ls.foldr insertByCreatedAtDesc []

/-- `GET /api/leads`: rate limit, `where` filter, sort, paginate. -/
def leadsGET (session : Option Session) (ip : String) (now : Nat)
    (q : LeadsQuery) (rl : RateMap) (db : Db) :
    ApiResult (List Lead) × RateMap :=
  match session with
  | none => (ApiResult.err 401 "Unauthorized", rl)
  | some sess =>
    let rlRes := rateLimit rl ip 100 900000 now
    if rlRes.1 then
      let filtered :=
        db.leads.filter (leadMatchesWhere sess.role sess.userId q)
      let pageData :=
        ((sortByCreatedAtDesc filtered).drop ((q.page - 1) * q.limit)).take
          q.limit
      (ApiResult.ok 200 pageData, rlRes.2)
    else (ApiResult.err 429 "Too many requests", rlRes.2)

/-! ### Lead update: `PATCH /api/leads/[id]` -/

/-- A raw JSON field: absent from the body, present-and-null (or `''`, which
the `addField` helper also maps to a null column), or present with a value. -/
inductive JField (α : Type) where
  | absent
  | nullv
  | val (a : α)
deriving DecidableEq, Repr

def JField.isPresent : JField α → Bool
  | JField.absent => false
  | _ => true

/-- `addField` on an optional column: key present with `''`/`null` writes
`NULL`, key present with a value writes the value, key absent leaves the
column alone. -/
def applyJField (f : JField α) (old : Option α) : Option α :=
  match f with
  | JField.absent => old
  | JField.nullv => none
  | JField.val a => some a

/-- The update body after `leadSchema.safeParse` (restricted to the columns
this model carries).  `status`/`priority`/`source`/`assignedTo` pass `zod`
only as valid values, and the handler copies them with a plain
`if ('key' in body)` check. -/
structure LeadUpdateBody where
  name : JField String
  phone : JField String
  email : JField String
  disease : JField String
  notes : JField String
  vppAmount : JField ℚ
  status : Option LeadStatus
  priority : Option LeadPriority
  source : Option LeadSource
  assignedTo : Option String
deriving DecidableEq, Repr

/-- `PATCH /api/leads/[id]`: ownership check, the employee `assignedTo`
strip, field-wise update, audit and notifications. -/
def leadsIdPATCH (session : Option Session) (ip : String) (now : Nat)
    (auditFails : Bool) (leadId : String) (body : LeadUpdateBody)
    (rl : RateMap) (db : Db) : ApiResult Lead × RateMap × Db :=
  match session with
  | none => (ApiResult.err 401 "Unauthorized", rl, db)
  | some sess =>
    let rlRes := rateLimit rl ip 100 900000 now
    if rlRes.1 then
      let rl' := rlRes.2
      match db.leads.find? (fun l => l.id == leadId) with
      | none => (ApiResult.err 404 "Lead not found", rl', db)
      | some existingLead =>
        if sess.role = Role.EMPLOYEE ∧ existingLead.assignedTo ≠ sess.userId
        then (ApiResult.err 403 "Forbidden", rl', db)
        else
          -- Employees cannot reassign leads: `delete body.assignedTo`
          let body' :=
            if sess.role = Role.EMPLOYEE then { body with assignedTo := none }
            else body
          let updated : Lead :=
            { existingLead with
              name :=
                match body'.name with
                | JField.val n => n
                | _ => existingLead.name
              phone :=
                match body'.phone with
                | JField.val p => p
                | _ => existingLead.phone
              email := applyJField body'.email existingLead.email
              disease := applyJField body'.disease existingLead.disease
              notes := applyJField body'.notes existingLead.notes
              vppAmount := applyJField body'.vppAmount existingLead.vppAmount
              status := body'.status.getD existingLead.status
              priority := body'.priority.getD existingLead.priority
              source := body'.source.getD existingLead.source
              assignedTo := body'.assignedTo.getD existingLead.assignedTo }
          let leads' := db.leads.map (fun l =>
            if l.id == leadId then updated else l)
          let logs' := createAuditLog auditFails db.auditLogs
            { userId := sess.userId
              action := AuditAction.UPDATE
              entityType := "Lead"
              entityId := existingLead.id
              changes := none
              description := some ("Updated lead: " ++ updated.name) }
          let currentUser := db.users.find? (fun u => u.id == sess.userId)
          let notifs1 :=
            match body'.assignedTo with
            | some newAssignee =>
              if newAssignee ≠ "" ∧ newAssignee ≠ existingLead.assignedTo then
                createNotification db.notifications
                  { userId := newAssignee
                    type := "LEAD_ASSIGNED"
                    title := "New Lead Assigned"
                    message := "You have been assigned a new lead: " ++
                      updated.name
                    entityType := some "Lead"
                    entityId := some updated.id }
              else db.notifications
            | none => db.notifications
          let statusChanged : Bool :=
            match body'.status with
            | some st => decide (st ≠ existingLead.status)
            | none => false
          let notifs2 :=
            if statusChanged &&
                decide ((currentUser.map User.role) = some Role.ADMIN) &&
                decide (updated.assignedTo ≠ sess.userId) then
              createNotification notifs1
                { userId := updated.assignedTo
                  type := "LEAD_STATUS_CHANGED"
                  title := "Lead Status Updated"
                  message := "Lead status changed"
                  entityType := some "Lead"
                  entityId := some updated.id }
            else notifs1
          let notifs3 :=
            if statusChanged &&
                decide ((currentUser.map User.role) = some Role.EMPLOYEE) then
              (db.users.filter (fun u =>
                  decide (u.role = Role.ADMIN) && u.isActive)).foldl
                (fun acc admin => createNotification acc
                  { userId := admin.id
                    type := "LEAD_STATUS_CHANGED"
                    title := "Lead Status Updated"
                    message := "Lead status changed"
                    entityType := some "Lead"
                    entityId := some updated.id })
                notifs2
            else notifs2
          (ApiResult.ok 200 updated, rl',
            { db with
              leads := leads'
              auditLogs := logs'
              notifications := notifs3 })
    else (ApiResult.err 429 "Too many requests", rlRes.2, db)

/-! ### Bulk assignment: `POST` with `{ leadIds, assignedTo }` -/

structure BulkAssignBody where
  leadIds : List String
  assignedTo : String
deriving DecidableEq, Repr

/-- The bulk-assign handler: gated by `requirePermission(.., 'leads',
'update')`, then `updateMany` over the given ids.  The response value is the
`updateMany` count. -/
def bulkAssignPOST (session : Option Session) (ip : String) (now : Nat)
    (auditFails : Bool) (body : BulkAssignBody) (rl : RateMap) (db : Db) :
    ApiResult Nat × RateMap × Db :=
  match session with
  | none => (ApiResult.err 401 "Unauthorized", rl, db)
  | some sess =>
    let rlRes := rateLimit rl ip 100 900000 now
    if rlRes.1 then
      let rl' := rlRes.2
      match requirePermission db.users sess.userId "leads" "update" with
      | Except.error _ => (ApiResult.err 403 "Forbidden", rl', db)
      | Except.ok _ =>
        if 1 ≤ body.assignedTo.length then
          match db.users.find? (fun u => u.id == body.assignedTo) with
          | none => (ApiResult.err 404 "User not found", rl', db)
          | some target =>
            let leads' := db.leads.map (fun l =>
              if body.leadIds.contains l.id then
                { l with assignedTo := body.assignedTo }
              else l)
            let count :=
              (db.leads.filter (fun l => body.leadIds.contains l.id)).length
            let logs' := body.leadIds.foldl
              (fun acc leadId => createAuditLog auditFails acc
                { userId := sess.userId
                  action := AuditAction.ASSIGN
                  entityType := "Lead"
                  entityId := leadId
                  changes := some body.assignedTo
                  description :=
                    some ("Bulk assigned lead to " ++ target.name) })
              db.auditLogs
            (ApiResult.ok 200 count, rl',
              { db with leads := leads', auditLogs := logs' })
        else (ApiResult.err 400 "Validation error", rl', db)
    else (ApiResult.err 429 "Too many requests", rlRes.2, db)

/-! ### Rate-limiter request sequences -/

/-- The map after `n` requests from client `ip`, all at time `now`, starting
from the empty map. -/
def rlIterate (ip : String) (limit w now : Nat) : Nat → RateMap
  | 0 => []
  | k + 1 => (rateLimit (rlIterate ip limit w now k) ip limit w now).2

theorem rlIterate_state (ip : String) (limit w now : Nat) (hlim : 1 ≤ limit) :
    ∀ k, 1 ≤ k →
      rlIterate ip limit w now k = [(ip, ⟨min k limit, now + w⟩)] := by
  intro k hk
  induction k with
  | zero => omega
  | succ n ih =>
    rcases Nat.eq_or_lt_of_le hk with h1 | h1
    · have hn : n = 0 := by omega
      subst hn
      simp [rlIterate, rateLimit, RateMap.get?, RateMap.set, Nat.min_eq_left
        hlim]
    · have hn : 1 ≤ n := by omega
      have hstate := ih hn
      simp only [rlIterate, hstate]
      by_cases hcap : limit ≤ n
      · have : min n limit = limit := Nat.min_eq_right hcap
        have hmin : min (n + 1) limit = limit := Nat.min_eq_right (by omega)
        simp [rateLimit, RateMap.get?, RateMap.set, this, hmin,
          Nat.not_lt.mpr (Nat.le_add_right now w)]
      · have hlt : n < limit := Nat.lt_of_not_le hcap
        have h1 : min n limit = n := Nat.min_eq_left (Nat.le_of_lt hlt)
        have h2 : min (n + 1) limit = n + 1 := Nat.min_eq_left hlt
        simp [rateLimit, RateMap.get?, RateMap.set, h1, h2,
          Nat.not_lt.mpr (Nat.le_add_right now w), Nat.not_le.mpr hlt]

/-- C7: the rate limiter allows the first request of a window storing
`{count := 1, resetTime := now + windowMs}`; before the reset time it
increments and allows while the count is strictly below the limit and denies
at or above the limit; a request strictly after the reset time is allowed and
resets the counter to `1`; consequently, starting a fresh window, the `k`-th
request is allowed exactly when `k ≤ limit`, so the `(N+1)`-th request is
denied precisely when `N` reaches the limit. -/
theorem rateLimit_spec (ip : String) (limit w now t : Nat) (m : RateMap)
    (r : RateRecord) (hlim : 1 ≤ limit) :
    (RateMap.get? m ip = none →
      rateLimit m ip limit w now = (true, RateMap.set m ip ⟨1, now + w⟩)) ∧
    (RateMap.get? m ip = some r → now ≤ r.resetTime → r.count < limit →
      rateLimit m ip limit w now =
        (true, RateMap.set m ip ⟨r.count + 1, r.resetTime⟩)) ∧
    (RateMap.get? m ip = some r → now ≤ r.resetTime → limit ≤ r.count →
      rateLimit m ip limit w now = (false, m)) ∧
    (RateMap.get? m ip = some r → r.resetTime < t →
      rateLimit m ip limit w t = (true, RateMap.set m ip ⟨1, t + w⟩)) ∧
    (∀ k, 1 ≤ k →
      (rateLimit (rlIterate ip limit w now (k - 1)) ip limit w now).1 =
        decide (k ≤ limit)) := by
  refine ⟨?_, ?_, ?_, ?_, ?_⟩
  · intro h
    simp [rateLimit, h]
  · intro h ht hc
    simp [rateLimit, h, Nat.not_lt.mpr ht, Nat.not_le.mpr hc]
  · intro h ht hc
    simp [rateLimit, h, Nat.not_lt.mpr ht, hc]
  · intro h ht
    simp [rateLimit, h, ht]
  · intro k hk
    rcases Nat.eq_or_lt_of_le hk with h1 | h1
    · have : k = 1 := h1.symm
      subst this
      simp [rlIterate, rateLimit, RateMap.get?, hlim]
    · have hk2 : 2 ≤ k := h1
      have hstate := rlIterate_state ip limit w now hlim (k - 1) (by omega)
      rw [hstate]
      by_cases hcap : k ≤ limit
      · have hmin : min (k - 1) limit = k - 1 := Nat.min_eq_left (by omega)
        have hko : ¬ limit ≤ k - 1 := by omega
        simp [rateLimit, RateMap.get?, hmin,
          Nat.not_lt.mpr (Nat.le_add_right now w), hko, hcap]
      · have hmin : min (k - 1) limit = limit := Nat.min_eq_right (by omega)
        simp [rateLimit, RateMap.get?, hmin,
          Nat.not_lt.mpr (Nat.le_add_right now w), hcap]

/-- Witness for C7: with limit 2 and window 10 at time 0, the first request
on an empty map is allowed and stores `{count 1, reset 10}`; the third request
of the window is denied (`3 ≤ 2` is false); a stored window whose reset time
has passed is reset to count 1. -/
theorem rateLimit_spec_witness :
    rateLimit [] "c" 2 10 0 = (true, [("c", ⟨1, 10⟩)]) ∧
    (rateLimit (rlIterate "c" 2 10 0 2) "c" 2 10 0).1 = decide (3 ≤ 2) ∧
    rateLimit [("c", ⟨2, 10⟩)] "c" 2 10 11 = (true, [("c", ⟨1, 21⟩)]) :=
  ⟨(rateLimit_spec "c" 2 10 0 11 [] ⟨1, 10⟩ (by decide)).1 rfl,
   (rateLimit_spec "c" 2 10 0 11 [] ⟨1, 10⟩ (by decide)).2.2.2.2 3
     (by decide),
   (rateLimit_spec "c" 2 10 0 11 [("c", ⟨2, 10⟩)] ⟨2, 10⟩
     (by decide)).2.2.2.1 rfl (by decide)⟩

/-- C10: `hasPermission` returns `false` when no user with the given id
exists, and `requirePermission` therefore signals exactly the
`Insufficient permissions` failure. -/
theorem hasPermission_missing_user (users : List User)
    (userId module action : String) (h : ∀ u ∈ users, u.id ≠ userId) :
    hasPermission users userId module action = false ∧
      requirePermission users userId module action =
        Except.error "Insufficient permissions" := by
  have hfind : users.find? (fun u => u.id == userId) = none := by
    rw [List.find?_eq_none]
    intro u hu
    simpa using h u hu
  have hperm : hasPermission users userId module action = false := by
    simp [hasPermission, hfind]
  exact ⟨hperm, by simp [requirePermission, hperm]⟩

/-- A one-admin users table used by concrete checks. -/
def adminOnlyUsers : List User :=
  [⟨"u1", "A", Role.ADMIN, true, []⟩]

/-- Witness for C10 at a concrete users table that does not contain the
requested id. -/
theorem hasPermission_missing_user_witness :
    hasPermission adminOnlyUsers "ghost" "leads" "update" = false ∧
    requirePermission adminOnlyUsers "ghost" "leads" "update" =
      Except.error "Insufficient permissions" :=
  hasPermission_missing_user adminOnlyUsers "ghost" "leads" "update"
    (by decide)

/-! ### Bulk assignment: permission gate (claim C4) -/

/-- An EMPLOYEE whose single assigned role grants the `(leads, update)`
permission pair. -/
def empGranted : User :=
  ⟨"emp1", "E", Role.EMPLOYEE, true, [⟨⟨[⟨"leads", "update"⟩]⟩⟩]⟩

/-- A second employee, the bulk-assignment target. -/
def empTarget : User :=
  ⟨"emp2", "F", Role.EMPLOYEE, true, []⟩

def c4Lead : Lead :=
  ⟨"l1", "A", "9990001111", none, none, none, LeadSource.OTHER,
    LeadStatus.NEW, LeadPriority.MEDIUM, "u9", none, 0⟩

def c4Db : Db :=
  ⟨[empGranted, empTarget], [c4Lead], [], [], [], []⟩

def c4Body : BulkAssignBody := ⟨["l1"], "emp2"⟩

def c4Session : Session := ⟨"emp1", some "E", Role.EMPLOYEE⟩

/-- Counterexample to C4: a caller whose role is EMPLOYEE (not ADMIN) but who
holds the `(leads, update)` permission through a role assignment performs a
bulk assignment successfully: the response is `200` with count `1` and the
lead's `assignedTo` changes from `u9` to `emp2`. -/
theorem bulkAssign_admin_only_refuted :
    c4Session.role ≠ Role.ADMIN ∧
    (bulkAssignPOST (some c4Session) "ip" 0 false c4Body [] c4Db).1 =
      ApiResult.ok 200 1 ∧
    ((bulkAssignPOST (some c4Session) "ip" 0 false c4Body []
        c4Db).2.2).leads.map Lead.assignedTo = ["emp2"] ∧
    c4Db.leads.map Lead.assignedTo = ["u9"] := by
  decide

/-- C4 as amended: the bulk-assign endpoint is gated by the `(leads, update)`
permission, not by the ADMIN role.  Given a request that passes the rate
limiter, the handler answers `403 Forbidden` leaving the state untouched
exactly when the caller lacks `hasPermission(caller, 'leads', 'update')`
(admins always hold it; a non-admin holds it iff some assigned role grants
it); any caller holding the permission gets past the gate. -/
theorem bulkAssign_permission_gate (sess : Session) (ip : String) (now : Nat)
    (auditFails : Bool) (body : BulkAssignBody) (rl rl' : RateMap) (db : Db)
    (hrl : rateLimit rl ip 100 900000 now = (true, rl')) :
    bulkAssignPOST (some sess) ip now auditFails body rl db =
        (ApiResult.err 403 "Forbidden", rl', db) ↔
      hasPermission db.users sess.userId "leads" "update" = false := by
  constructor
  · intro h
    by_contra hperm
    have hp : hasPermission db.users sess.userId "leads" "update" = true := by
      exact eq_true_of_ne_false hperm
    simp only [bulkAssignPOST, hrl, requirePermission, hp, if_true] at h
    split at h
    · split at h <;> simp at h
    · simp at h
  · intro hperm
    simp [bulkAssignPOST, hrl, requirePermission, hperm]

/-- Witness for the amended C4 at a concrete state: a caller absent from the
users table lacks the permission, and the bulk assign is rejected with 403
leaving the database untouched. -/
theorem bulkAssign_permission_gate_witness :
    (bulkAssignPOST (some ⟨"ghost", none, Role.EMPLOYEE⟩) "ip" 0 false c4Body
        [] c4Db =
      (ApiResult.err 403 "Forbidden", [("ip", ⟨1, 900000⟩)], c4Db)) ↔
      hasPermission c4Db.users "ghost" "leads" "update" = false :=
  bulkAssign_permission_gate ⟨"ghost", none, Role.EMPLOYEE⟩ "ip" 0 false
    c4Body [] [("ip", ⟨1, 900000⟩)] c4Db (by decide)

/-! ### Audit failures are swallowed (claim C9) -/

/-- Everything a handler result carries except the audit-log table. -/
def businessView {α : Type} (r : ApiResult α × RateMap × Db) :
    ApiResult α × RateMap × List User × List Lead × List Order ×
      List Payment × List Notification :=
  (r.1, r.2.1, r.2.2.users, r.2.2.leads, r.2.2.orders, r.2.2.payments,
    r.2.2.notifications)

set_option maxHeartbeats 1600000 in
/-- C9: `createAuditLog` catches a failing store write and returns normally
(the table unchanged instead of a propagated error), and consequently every
mutation handler produces exactly the same response, rate-limiter state and
business tables whether or not the audit store fails — a failed audit write
never changes the outcome of the parent operation. -/
theorem createAuditLog_failure_harmless :
    (∀ (storeFails : Bool) (logs : List AuditLog) (entry : AuditLog),
      createAuditLog storeFails logs entry =
        if storeFails then logs else logs ++ [entry]) ∧
    (∀ session ip now draws newOrderId body rl db,
      (ordersPOST session ip now draws newOrderId true body rl db).map
          businessView =
        (ordersPOST session ip now draws newOrderId false body rl db).map
          businessView) ∧
    (∀ session ip now orderId body rl db,
      businessView (ordersPATCH session ip now true orderId body rl db) =
        businessView (ordersPATCH session ip now false orderId body rl db)) ∧
    (∀ session ip now leadId body rl db,
      businessView (leadsIdPATCH session ip now true leadId body rl db) =
        businessView (leadsIdPATCH session ip now false leadId body rl db)) ∧
    (∀ session ip now body rl db,
      businessView (bulkAssignPOST session ip now true body rl db) =
        businessView (bulkAssignPOST session ip now false body rl db)) := by
  refine ⟨?_, ?_, ?_, ?_, ?_⟩
  · intro storeFails logs entry
    cases storeFails <;> rfl
  · intro session ip now draws newOrderId body rl db
    cases session with
    | none => rfl
    | some sess =>
      simp only [ordersPOST]
      repeat' split <;> try rfl
  · intro session ip now orderId body rl db
    cases session with
    | none => rfl
    | some sess =>
      simp only [ordersPATCH]
      repeat' split <;> try rfl
  · intro session ip now leadId body rl db
    cases session with
    | none => rfl
    | some sess =>
      simp only [leadsIdPATCH]
      repeat' split <;> try rfl
  · intro session ip now body rl db
    cases session with
    | none => rfl
    | some sess =>
      simp only [bulkAssignPOST]
      repeat' split <;> try rfl

/-! ### Order creation: inversion of a successful conversion -/

/-- The HTTP status of a response. -/
def ApiResult.status : ApiResult α → Nat
  | ApiResult.ok s _ => s
  | ApiResult.err s _ => s

theorem pickOrderNumber_not_exists (orders : List Order)
    (draws : List (Nat × Nat)) (n : String)
    (h : pickOrderNumber orders draws = some n) :
    orderNumberExists orders n = false := by
  induction draws with
  | nil => simp [pickOrderNumber] at h
  | cons d rest ih =>
    obtain ⟨ts, rand⟩ := d
    rw [pickOrderNumber] at h
    split at h
    · exact ih h
    · next hcol =>
      injection h with h2
      subst h2
      simpa using hcol

/-- Everything a successful `ordersPOST` (status `ok`) implies about its
output, read off the handler: the status is 201, the new order is appended
with status PENDING and the lead's name, its number was collision-checked
against the existing orders, the lead is flipped to CONVERTED, and a single
INITIAL payment is appended exactly when the supplied amount is positive. -/
theorem ordersPOST_ok_inv (session : Option Session) (ip : String) (now : Nat)
    (draws : List (Nat × Nat)) (newOrderId : String) (auditFails : Bool)
    (body : OrderCreateBody) (rl : RateMap) (db : Db) (st : Nat) (o : Order)
    (rl2 : RateMap) (db2 : Db)
    (h : ordersPOST session ip now draws newOrderId auditFails body rl db =
      some (ApiResult.ok st o, rl2, db2)) :
    st = 201 ∧
    o.id = newOrderId ∧
    o.leadId = body.leadId ∧
    o.status = OrderStatus.PENDING ∧
    o.receivedAmount = body.receivedAmount ∧
    db2.orders = db.orders ++ [o] ∧
    orderNumberExists db.orders o.orderNumber = false ∧
    db2.leads = db.leads.map (fun l =>
      if l.id == body.leadId then { l with status := LeadStatus.CONVERTED }
      else l) ∧
    (∃ lead, db.leads.find? (fun l => l.id == body.leadId) = some lead ∧
      o.patientName = lead.name) ∧
    (∃ sess, session = some sess ∧
      db2.payments =
        (if 0 < body.receivedAmount then
          db.payments ++
            [{ orderId := newOrderId
               amount := body.receivedAmount
               paymentType := PaymentType.INITIAL
               paymentMethod := body.paymentMethod.getD "MONEY_ORDER"
               referenceNumber := body.moneyOrderNumber
               receivedBy := sess.userId }]
         else db.payments)) := by
  cases session with
  | none => simp [ordersPOST] at h
  | some sess =>
    simp only [ordersPOST] at h
    split at h
    · split at h
      · split at h
        · simp at h
        · next lead hlead =>
          split at h
          · simp at h
          · next n hpick =>
            simp only [Option.some.injEq, Prod.mk.injEq,
              ApiResult.ok.injEq] at h
            obtain ⟨⟨hst, ho⟩, hrl2, hdb2⟩ := h
            subst hst
            subst ho
            subst hrl2
            subst hdb2
            refine ⟨rfl, rfl, rfl, rfl, rfl, rfl, ?_, rfl, ⟨lead, hlead,
              rfl⟩, ⟨sess, rfl, rfl⟩⟩
            exact pickOrderNumber_not_exists db.orders draws n hpick
      · simp at h
    · simp at h

/-! ### Claim C1: lead ownership on order creation -/

/-- A lead assigned to `adminX`, not to the employee making the request. -/
def c1Lead : Lead :=
  ⟨"l1", "A", "9990001111", none, none, none, LeadSource.OTHER,
    LeadStatus.NEW, LeadPriority.MEDIUM, "adminX", none, 0⟩

def c1Db : Db := ⟨[], [c1Lead], [], [], [], []⟩

def c1Body : OrderCreateBody :=
  ⟨"l1", 0, PaymentStatus.PENDING, none, none, 0, 0, none, none⟩

def c1Session : Session := ⟨"emp1", some "E", Role.EMPLOYEE⟩

/-- Counterexample to C1: an EMPLOYEE converts a lead assigned to somebody
else, and instead of an authorization error the request succeeds with 201,
creates the order and flips the lead to CONVERTED — the handler never checks
the lead's assignee. -/
theorem ordersPOST_lead_ownership_refuted :
    c1Lead.assignedTo ≠ c1Session.userId ∧
    (ordersPOST (some c1Session) "ip" 0 [(1234567, 5)] "o1" false c1Body []
        c1Db).map
      (fun r => (ApiResult.status r.1, r.2.2.orders.length,
        r.2.2.leads.map Lead.status)) =
      some (201, 1, [LeadStatus.CONVERTED]) := by
  constructor
  · decide
  · rfl

/-- C1 as amended: `POST /api/orders` performs no lead-ownership check.  For
an EMPLOYEE caller, whenever the rate limit and validation pass and the
referenced lead exists, the request succeeds with 201 and creates an order
assigned to the caller even though the lead's `assignedTo` differs from the
caller's id; the only lead-related failure is 404 when the lead is missing. -/
theorem ordersPOST_no_ownership_check (sess : Session) (ip : String)
    (now : Nat) (draws : List (Nat × Nat)) (newOrderId : String)
    (auditFails : Bool) (body : OrderCreateBody) (rl : RateMap) (db : Db)
    (lead : Lead) (n : String) (hrole : sess.role = Role.EMPLOYEE)
    (hrl : (rateLimit rl ip 100 900000 now).1 = true)
    (hschema : orderSchemaOk body = true)
    (hlead : db.leads.find? (fun l => l.id == body.leadId) = some lead)
    (hdiff : lead.assignedTo ≠ sess.userId)
    (hpick : pickOrderNumber db.orders draws = some n) :
    ∃ o rl2 db2,
      ordersPOST (some sess) ip now draws newOrderId auditFails body rl db =
        some (ApiResult.ok 201 o, rl2, db2) ∧
      o.assignedTo = sess.userId ∧ o.orderNumber = n ∧
      db2.orders = db.orders ++ [o] := by
  simp only [ordersPOST, hrl, if_true, hschema, hlead, hpick, hrole]
  refine ⟨_, _, _, rfl, ?_, rfl, rfl⟩
  simp

/-- Witness for the amended C1 at the concrete counterexample state. -/
theorem ordersPOST_no_ownership_check_witness :
    ∃ o rl2 db2,
      ordersPOST (some c1Session) "ip" 0 [(1234567, 5)] "o1" false c1Body []
          c1Db =
        some (ApiResult.ok 201 o, rl2, db2) ∧
      o.assignedTo = c1Session.userId ∧ o.orderNumber = "G234567005" ∧
      db2.orders = c1Db.orders ++ [o] :=
  ordersPOST_no_ownership_check c1Session "ip" 0 [(1234567, 5)] "o1" false
    c1Body [] c1Db c1Lead "G234567005" rfl (by decide) (by decide) (by decide)
    (by decide) (by decide)

/-! ### Claim C5: conversion postconditions -/

/-- C5: after a successful conversion the order count referencing the lead id
rises by exactly one, the new order has status PENDING and the lead's name as
patient name, the lead's stored status becomes CONVERTED, and exactly one
INITIAL payment for the new order exists iff the supplied received amount is
positive (and any payment on the new order carries exactly that amount). -/
theorem ordersPOST_conversion_postconditions (session : Option Session)
    (ip : String) (now : Nat) (draws : List (Nat × Nat)) (newOrderId : String)
    (auditFails : Bool) (body : OrderCreateBody) (rl : RateMap) (db : Db)
    (st : Nat) (o : Order) (rl2 : RateMap) (db2 : Db)
    (h : ordersPOST session ip now draws newOrderId auditFails body rl db =
      some (ApiResult.ok st o, rl2, db2))
    (hfresh : ∀ p ∈ db.payments, p.orderId ≠ newOrderId) :
    o.leadId = body.leadId ∧
    o.status = OrderStatus.PENDING ∧
    (db2.orders.filter (fun x => x.leadId == body.leadId)).length =
      (db.orders.filter (fun x => x.leadId == body.leadId)).length + 1 ∧
    (∃ lead, db.leads.find? (fun l => l.id == body.leadId) = some lead ∧
      o.patientName = lead.name ∧
      db2.leads.find? (fun l => l.id == body.leadId) =
        some { lead with status := LeadStatus.CONVERTED }) ∧
    ((db2.payments.filter (fun p =>
        p.orderId == o.id &&
          decide (p.paymentType = PaymentType.INITIAL))).length =
      if 0 < body.receivedAmount then 1 else 0) ∧
    (∀ p ∈ db2.payments, p.orderId = o.id →
      p.amount = body.receivedAmount ∧
        p.paymentType = PaymentType.INITIAL) := by
  obtain ⟨hst, hid, hleadId, hstatus, hra, horders, hnum, hleads,
    ⟨lead, hfind, hname⟩, ⟨sess, hsess, hpay⟩⟩ :=
    ordersPOST_ok_inv _ _ _ _ _ _ _ _ _ _ _ _ _ h
  have hnil : db.payments.filter (fun p =>
      p.orderId == o.id && decide (p.paymentType = PaymentType.INITIAL)) =
        [] := by
    rw [List.filter_eq_nil_iff]
    intro p hp
    simp [hid, hfresh p hp]
  refine ⟨hleadId, hstatus, ?_, ⟨lead, hfind, hname, ?_⟩, ?_, ?_⟩
  · simp [horders, List.filter_append, hleadId]
  · rw [hleads, List.find?_map]
    have hpred : ((fun (l : Lead) => l.id == body.leadId) ∘
        (fun (l : Lead) =>
          if l.id == body.leadId then
            { l with status := LeadStatus.CONVERTED }
          else l)) = (fun (l : Lead) => l.id == body.leadId) := by
      funext l
      by_cases hc : l.id = body.leadId <;> simp [hc]
    rw [hpred, hfind]
    have hc : lead.id = body.leadId := by
      have h0 := List.find?_some hfind
      simpa using h0
    simp [hc]
  · rw [hpay]
    by_cases hpos : 0 < body.receivedAmount
    · simp only [hpos, if_true, List.filter_append, hnil, List.nil_append]
      simp [hid]
    · simp [hpos, hnil]
  · intro p hp hpid
    rw [hpay] at hp
    by_cases hpos : 0 < body.receivedAmount
    · rw [if_pos hpos] at hp
      rcases List.mem_append.mp hp with hold | hnew
      · exact absurd (hpid.trans hid) (hfresh p hold)
      · simp only [List.mem_singleton] at hnew
        subst hnew
        exact ⟨rfl, rfl⟩
    · rw [if_neg hpos] at hp
      exact absurd (hpid.trans hid) (hfresh p hp)

/-- The qualified lead of the C5 witness scenario, assigned to `emp1`. -/
def c5Lead : Lead :=
  ⟨"l5", "B", "8880001111", none, none, none, LeadSource.WEBSITE,
    LeadStatus.QUALIFIED, LeadPriority.HIGH, "emp1", none, 0⟩

def c5Db : Db := ⟨[], [c5Lead], [], [], [], []⟩

/-- Conversion body from the spec's example scenario: total 5000, received
2000, PARTIAL. -/
def c5Body : OrderCreateBody :=
  ⟨"l5", 2000, PaymentStatus.PARTIAL, none, none, 5000, 5000, none, none⟩

/-- The order the C5 witness conversion creates. -/
def c5Order : Order :=
  ⟨"o5", "G234567006", "l5", "B", "G234567006", 5000, 5000, 2000,
    PaymentStatus.PARTIAL, none, none, OrderStatus.PENDING, "emp1", "emp1",
    none, none, none, none, none, none, none, none, none, 0⟩

def c5Payment : Payment :=
  ⟨"o5", 2000, PaymentType.INITIAL, "MONEY_ORDER", none, "emp1"⟩

def c5Audit : AuditLog :=
  ⟨"emp1", AuditAction.CREATE, "Order", "o5", some "G234567006",
    some "Created order from lead: B"⟩

def c5Db2 : Db :=
  ⟨[], [{ c5Lead with status := LeadStatus.CONVERTED }], [c5Order],
    [c5Payment], [c5Audit], []⟩

/-- Witness for C5: the concrete conversion of lead `l5` by its assignee
with received amount 2000 satisfies every postcondition. -/
theorem ordersPOST_conversion_postconditions_witness :
    c5Order.leadId = c5Body.leadId ∧
    c5Order.status = OrderStatus.PENDING ∧
    (c5Db2.orders.filter (fun x => x.leadId == c5Body.leadId)).length =
      (c5Db.orders.filter (fun x => x.leadId == c5Body.leadId)).length + 1 ∧
    (∃ lead, c5Db.leads.find? (fun l => l.id == c5Body.leadId) = some lead ∧
      c5Order.patientName = lead.name ∧
      c5Db2.leads.find? (fun l => l.id == c5Body.leadId) =
        some { lead with status := LeadStatus.CONVERTED }) ∧
    ((c5Db2.payments.filter (fun p =>
        p.orderId == c5Order.id &&
          decide (p.paymentType = PaymentType.INITIAL))).length =
      if 0 < c5Body.receivedAmount then 1 else 0) ∧
    (∀ p ∈ c5Db2.payments, p.orderId = c5Order.id →
      p.amount = c5Body.receivedAmount ∧
        p.paymentType = PaymentType.INITIAL) :=
  ordersPOST_conversion_postconditions (some c1Session) "ip" 0 [(1234567, 6)]
    "o5" false c5Body [] c5Db 201 c5Order [("ip", ⟨1, 900000⟩)] c5Db2
    (by decide) (by decide)

/-! ### Claim C6: distinct order numbers under sequential creation -/

/-- C6: two orders created successfully one after the other — with arbitrary,
possibly identical, timestamp/random draws, in particular within the same
millisecond — carry distinct order numbers, because the retry loop checks the
second candidate against the table that already contains the first order. -/
theorem orderNumbers_distinct (s1 s2 : Option Session) (ip1 ip2 : String)
    (now1 now2 : Nat) (draws1 draws2 : List (Nat × Nat)) (id1 id2 : String)
    (af1 af2 : Bool) (b1 b2 : OrderCreateBody) (rl1 rl2x : RateMap)
    (db db1 db2 : Db) (st1 st2 : Nat) (o1 o2 : Order) (rlA rlB : RateMap)
    (h1 : ordersPOST s1 ip1 now1 draws1 id1 af1 b1 rl1 db =
      some (ApiResult.ok st1 o1, rlA, db1))
    (h2 : ordersPOST s2 ip2 now2 draws2 id2 af2 b2 rl2x db1 =
      some (ApiResult.ok st2 o2, rlB, db2)) :
    o1.orderNumber ≠ o2.orderNumber := by
  have hA := ordersPOST_ok_inv _ _ _ _ _ _ _ _ _ _ _ _ _ h1
  have hB := ordersPOST_ok_inv _ _ _ _ _ _ _ _ _ _ _ _ _ h2
  have horders1 := hA.2.2.2.2.2.1
  have hnum2 := hB.2.2.2.2.2.2.1
  rw [horders1] at hnum2
  simp only [orderNumberExists, List.any_append,
    Bool.or_eq_false_iff] at hnum2
  have := hnum2.2
  simp at this
  exact fun hEq => this hEq

/-- Lead/state for the C6 witness. -/
def c6Lead : Lead :=
  ⟨"l6", "C", "7770001111", none, none, none, LeadSource.OTHER,
    LeadStatus.NEW, LeadPriority.MEDIUM, "a1", none, 0⟩

def c6Db : Db := ⟨[], [c6Lead], [], [], [], []⟩

def c6Body : OrderCreateBody :=
  ⟨"l6", 0, PaymentStatus.PENDING, none, none, 0, 0, none, none⟩

def c6Session : Session := ⟨"a1", none, Role.ADMIN⟩

/-- First order of the C6 witness, drawn at millisecond 1234567 with
random 6. -/
def c6o1 : Order :=
  ⟨"oA", "G234567006", "l6", "C", "G234567006", 0, 0, 0,
    PaymentStatus.PENDING, none, none, OrderStatus.PENDING, "a1", "a1",
    none, none, none, none, none, none, none, none, none, 0⟩

/-- Second order of the C6 witness: the same millisecond and even the same
first random draw; the retry loop falls through to random 7. -/
def c6o2 : Order :=
  ⟨"oB", "G234567007", "l6", "C", "G234567007", 0, 0, 0,
    PaymentStatus.PENDING, none, none, OrderStatus.PENDING, "a1", "a1",
    none, none, none, none, none, none, none, none, none, 0⟩

def c6Db1 : Db :=
  ⟨[], [{ c6Lead with status := LeadStatus.CONVERTED }], [c6o1], [], [], []⟩

def c6Db2 : Db :=
  ⟨[], [{ c6Lead with status := LeadStatus.CONVERTED }], [c6o1, c6o2], [],
    [], []⟩

/-- Witness for C6: both conversions observe the same millisecond 1234567 and
the second one re-draws the colliding random 6 first, yet the order numbers
differ. -/
theorem orderNumbers_distinct_witness : c6o1.orderNumber ≠ c6o2.orderNumber :=
  orderNumbers_distinct (some c6Session) (some c6Session) "ip" "ip" 0 0
    [(1234567, 6)] [(1234567, 6), (1234567, 7)] "oA" "oB" true true c6Body
    c6Body [] [("ip", ⟨1, 900000⟩)] c6Db c6Db1 c6Db2 201 201 c6o1 c6o2
    [("ip", ⟨1, 900000⟩)] [("ip", ⟨2, 900000⟩)] (by decide) (by decide)

/-! ### Claim C2: receivedAmount on order update -/

/-- An order that has already received 500. -/
def c2Order : Order :=
  ⟨"oX", "G000001001", "lX", "P", "G000001001", 5000, 5000, 500,
    PaymentStatus.PARTIAL, none, none, OrderStatus.PENDING, "a1", "a1",
    none, none, none, none, none, none, none, none, none, 0⟩

def c2Db : Db := ⟨[], [], [c2Order], [], [], []⟩

/-- An update body lowering `receivedAmount` from 500 to 100. -/
def c2Body : OrderUpdateBody :=
  ⟨none, none, none, none, none, some 100, none, none, none, none, none,
    none, none⟩

/-- Counterexample to C2: a successful `PATCH /api/orders/[id]` lowers
`receivedAmount` from 500 to 100 — monotonicity is not enforced — and no
payment record is written for the change. -/
theorem ordersPATCH_monotonicity_refuted :
    (ordersPATCH (some c6Session) "ip" 0 false "oX" c2Body [] c2Db).1 =
      ApiResult.ok 200 { c2Order with receivedAmount := 100 } ∧
    ((ordersPATCH (some c6Session) "ip" 0 false "oX" c2Body []
        c2Db).2.2).payments = [] ∧
    (100 : ℚ) < c2Order.receivedAmount := by
  refine ⟨by decide, by decide, by norm_num [c2Order]⟩

/-- C2 as amended: a successful order update sets `receivedAmount` to
whatever value the body supplies (which may be below the stored one —
monotonicity is not enforced); when the supplied value strictly exceeds the
stored nonnegative amount, exactly one Payment for the delta is appended,
INITIAL if the stored amount was zero and PARTIAL otherwise; with no supplied
value, or one that does not strictly increase the amount, the payments table
is unchanged. -/
theorem ordersPATCH_receivedAmount_behavior (session : Option Session)
    (ip : String) (now : Nat) (auditFails : Bool) (orderId : String)
    (body : OrderUpdateBody) (rl : RateMap) (db : Db) (st : Nat) (o : Order)
    (rl2 : RateMap) (db2 : Db)
    (h : ordersPATCH session ip now auditFails orderId body rl db =
      (ApiResult.ok st o, rl2, db2)) :
    st = 200 ∧
    (∃ sess old, session = some sess ∧
      db.orders.find? (fun x => x.id == orderId) = some old ∧
      o.receivedAmount = body.receivedAmount.getD old.receivedAmount ∧
      (body.receivedAmount = none → db2.payments = db.payments) ∧
      (∀ ra, body.receivedAmount = some ra →
        (0 ≤ old.receivedAmount →
          (old.receivedAmount < ra →
            db2.payments = db.payments ++
              [{ orderId := orderId
                 amount := ra - old.receivedAmount
                 paymentType :=
                   if 0 < old.receivedAmount then PaymentType.PARTIAL
                   else PaymentType.INITIAL
                 paymentMethod :=
                   body.paymentMethod.getD
                     (old.paymentMethod.getD "MONEY_ORDER")
                 referenceNumber :=
                   match body.moneyOrderNumber with
                   | some r => some r
                   | none => old.moneyOrderNumber
                 receivedBy := sess.userId }]) ∧
          (¬ old.receivedAmount < ra → db2.payments = db.payments)))) := by
  cases session with
  | none => simp [ordersPATCH] at h
  | some sess =>
    simp only [ordersPATCH] at h
    split at h
    · split at h
      · simp at h
      · next old hfind =>
        split at h
        · simp at h
        · split at h
          · simp only [Prod.mk.injEq, ApiResult.ok.injEq] at h
            obtain ⟨⟨hst, ho⟩, hrl2, hdb2⟩ := h
            subst hst
            subst ho
            subst hrl2
            subst hdb2
            refine ⟨rfl, sess, old, rfl, hfind, rfl, ?_, ?_⟩
            · intro hnone
              simp [hnone]
            · intro ra hra hge
              rw [hra]
              constructor
              · intro hlt
                have hne : ra ≠ 0 := by
                  intro h0
                  subst h0
                  exact absurd (lt_of_le_of_lt hge hlt) (lt_irrefl 0)
                simp [hne, hlt]
              · intro hnlt
                simp [hnlt]
          · simp at h
    · simp at h

/-- Witness for the amended C2: the concrete run of the counterexample —
lowering 500 to 100 — satisfies the amended description (value taken from the
body, payments untouched because the amount did not increase). -/
theorem ordersPATCH_receivedAmount_behavior_witness :
    (200 : Nat) = 200 ∧
    (∃ sess old, (some c6Session : Option Session) = some sess ∧
      c2Db.orders.find? (fun x => x.id == "oX") = some old ∧
      ({ c2Order with receivedAmount := (100 : ℚ) } : Order).receivedAmount =
        c2Body.receivedAmount.getD old.receivedAmount ∧
      (c2Body.receivedAmount = none → c2Db.payments = c2Db.payments) ∧
      (∀ ra, c2Body.receivedAmount = some ra →
        (0 ≤ old.receivedAmount →
          (old.receivedAmount < ra →
            c2Db.payments = c2Db.payments ++
              [{ orderId := "oX"
                 amount := ra - old.receivedAmount
                 paymentType :=
                   if 0 < old.receivedAmount then PaymentType.PARTIAL
                   else PaymentType.INITIAL
                 paymentMethod :=
                   c2Body.paymentMethod.getD
                     (old.paymentMethod.getD "MONEY_ORDER")
                 referenceNumber :=
                   match c2Body.moneyOrderNumber with
                   | some r => some r
                   | none => old.moneyOrderNumber
                 receivedBy := sess.userId }]) ∧
          (¬ old.receivedAmount < ra → c2Db.payments = c2Db.payments)))) :=
  ordersPATCH_receivedAmount_behavior (some c6Session) "ip" 0 false "oX"
    c2Body [] c2Db 200 { c2Order with receivedAmount := (100 : ℚ) }
    [("ip", ⟨1, 900000⟩)]
    (ordersPATCH (some c6Session) "ip" 0 false "oX" c2Body [] c2Db).2.2
    (by decide)

/-! ### Claim C8: employees cannot reassign a lead -/

/-- C8: for every lead-update request made by an EMPLOYEE — whatever the
body contains, including an `assignedTo` field — every lead's `assignedTo`
is unchanged afterwards: the handler deletes `assignedTo` from employee
payloads before building the update, and every failure branch leaves the
table untouched.  (Lead ids are assumed unique, as the database enforces.) -/
theorem leadsIdPATCH_employee_preserves_assignedTo (sess : Session)
    (ip : String) (now : Nat) (auditFails : Bool) (leadId : String)
    (body : LeadUpdateBody) (rl : RateMap) (db : Db)
    (hrole : sess.role = Role.EMPLOYEE)
    (hnodup : (db.leads.map Lead.id).Nodup) :
    ((leadsIdPATCH (some sess) ip now auditFails leadId body rl
        db).2.2).leads.map (fun l => (l.id, l.assignedTo)) =
      db.leads.map (fun l => (l.id, l.assignedTo)) := by
  simp only [leadsIdPATCH]
  split
  · split
    · rfl
    · next existingLead hfind =>
      split
      · rfl
      · simp only [hrole, if_true]
        rw [List.map_map]
        apply List.map_congr_left
        intro l hl
        by_cases hcond : l.id = leadId
        · have hbeq : (l.id == leadId) = true := by simpa using hcond
          have hmem := List.mem_of_find?_eq_some hfind
          have hpred : existingLead.id = leadId := by
            have h0 := List.find?_some hfind
            simpa using h0
          have hleq : l = existingLead :=
            List.inj_on_of_nodup_map hnodup hl hmem
              (by rw [hcond, hpred])
          simp only [Function.comp_apply, hbeq, if_true]
          rw [hleq]
          rfl
        · have hbeq : (l.id == leadId) = false := by simpa using hcond
          simp [hbeq, hcond]
  · rfl

/-- The C8 witness lead, assigned to employee `e8`. -/
def c8Lead : Lead :=
  ⟨"l8", "H", "6660001111", none, none, none, LeadSource.REFERRAL,
    LeadStatus.NEW, LeadPriority.LOW, "e8", none, 0⟩

def c8Db : Db := ⟨[], [c8Lead], [], [], [], []⟩

/-- An employee update that changes the notes and tries to reassign the lead
to `someoneElse`. -/
def c8Body : LeadUpdateBody :=
  ⟨JField.absent, JField.absent, JField.absent, JField.absent,
    JField.val "called twice", JField.absent, none, none, none,
    some "someoneElse"⟩

/-- Witness for C8: the employee's update (which even carries
`assignedTo := someoneElse`) leaves every lead's assignee untouched. -/
theorem leadsIdPATCH_employee_preserves_assignedTo_witness :
    ((leadsIdPATCH (some ⟨"e8", none, Role.EMPLOYEE⟩) "ip" 0 false "l8"
        c8Body [] c8Db).2.2).leads.map (fun l => (l.id, l.assignedTo)) =
      c8Db.leads.map (fun l => (l.id, l.assignedTo)) :=
  leadsIdPATCH_employee_preserves_assignedTo ⟨"e8", none, Role.EMPLOYEE⟩
    "ip" 0 false "l8" c8Body [] c8Db rfl (by decide)

/-! ### Claim C3: CONVERTED leads in the default listing -/

/-- Mark a lead CONVERTED, leaving every other column alone. -/
def setConverted (l : Lead) : Lead := { l with status := LeadStatus.CONVERTED }

/-- Map the payload of an `ok` response. -/
def ApiResult.mapVal (f : α → β) : ApiResult α → ApiResult β
  | ApiResult.ok s v => ApiResult.ok s (f v)
  | ApiResult.err s m => ApiResult.err s m

/-- A CONVERTED lead assigned to employee `e1`. -/
def c3Lead : Lead :=
  ⟨"l3", "D", "5550001111", none, none, none, LeadSource.OTHER,
    LeadStatus.CONVERTED, LeadPriority.MEDIUM, "e1", none, 0⟩

def c3Db : Db := ⟨[], [c3Lead], [], [], [], []⟩

/-- The default listing request: no filters, first page, page size 20. -/
def c3Query : LeadsQuery := ⟨none, none, none, none, none, none, 1, 20⟩

/-- Counterexample to C3: a `GET /api/leads` request without any `status`
parameter (in particular without `status=CONVERTED`) returns a lead whose
status is CONVERTED — the handler never filters CONVERTED out. -/
theorem leadsGET_converted_excluded_refuted :
    c3Query.status = none ∧
    (leadsGET (some ⟨"e1", none, Role.EMPLOYEE⟩) "ip" 0 c3Query [] c3Db).1 =
      ApiResult.ok 200 [c3Lead] ∧
    c3Lead.status = LeadStatus.CONVERTED := by
  refine ⟨rfl, by decide, rfl⟩

theorem leadMatchesWhere_status_blind (role : Role) (uid : String)
    (q : LeadsQuery) (l : Lead) (h : q.status = none) :
    leadMatchesWhere role uid q (setConverted l) =
      leadMatchesWhere role uid q l := by
  obtain ⟨qs, qp, qsrc, qsd, qed, qsearch, qpage, qlimit⟩ := q
  simp only at h
  subst h
  rfl

theorem insertByCreatedAtDesc_setConverted (x : Lead) (ls : List Lead) :
    insertByCreatedAtDesc (setConverted x) (ls.map setConverted) =
      (insertByCreatedAtDesc x ls).map setConverted := by
  induction ls with
  | nil => rfl
  | cons y ys ih =>
    simp only [List.map_cons, insertByCreatedAtDesc]
    by_cases hc : x.createdAt ≤ y.createdAt
    · simpa [setConverted, hc] using ih
    · simp [setConverted, hc]

theorem sortByCreatedAtDesc_setConverted (ls : List Lead) :
    sortByCreatedAtDesc (ls.map setConverted) =
      (sortByCreatedAtDesc ls).map setConverted := by
  induction ls with
  | nil => rfl
  | cons x xs ih =>
    simp only [List.map_cons, sortByCreatedAtDesc, List.foldr_cons]
    simp only [sortByCreatedAtDesc] at ih
    rw [ih]
    exact insertByCreatedAtDesc_setConverted x (xs.foldr
      insertByCreatedAtDesc [])

/-- C3 as amended: the lead listing applies no CONVERTED exclusion at all.
When the request carries no `status` parameter the assembled `where` filter is
blind to lead status: marking every stored lead CONVERTED produces exactly the
same response (same status, same rate-limiter state, the same leads
mutatis mutandis), so CONVERTED leads appear in the default listing whenever
they satisfy the assignee/priority/source/date/search filters and the page
window; `status=CONVERTED` is not required for them to be returned. -/
theorem leadsGET_no_converted_exclusion (sess : Session) (ip : String)
    (now : Nat) (q : LeadsQuery) (rl : RateMap) (db : Db)
    (h : q.status = none) :
    leadsGET (some sess) ip now q rl
        { db with leads := db.leads.map setConverted } =
      (ApiResult.mapVal (List.map setConverted)
          (leadsGET (some sess) ip now q rl db).1,
        (leadsGET (some sess) ip now q rl db).2) := by
  simp only [leadsGET]
  split
  · simp only
    have hfilter : (db.leads.map setConverted).filter
        (leadMatchesWhere sess.role sess.userId q) =
        (db.leads.filter
          (leadMatchesWhere sess.role sess.userId q)).map setConverted := by
      rw [List.filter_map setConverted db.leads]
      have hpred : (leadMatchesWhere sess.role sess.userId q ∘ setConverted) =
          leadMatchesWhere sess.role sess.userId q := by
        funext l
        exact leadMatchesWhere_status_blind sess.role sess.userId q l h
      rw [hpred]
    rw [hfilter, sortByCreatedAtDesc_setConverted,
      ← List.map_drop setConverted, ← List.map_take setConverted]
    rfl
  · rfl

/-- Witness for the amended C3 at the concrete state of the counterexample:
converting the stored lead changes nothing about the default listing's
response beyond the lead's own status field. -/
theorem leadsGET_no_converted_exclusion_witness :
    leadsGET (some ⟨"e1", none, Role.EMPLOYEE⟩) "ip" 0 c3Query []
        { c3Db with leads := c3Db.leads.map setConverted } =
      (ApiResult.mapVal (List.map setConverted)
          (leadsGET (some ⟨"e1", none, Role.EMPLOYEE⟩) "ip" 0 c3Query []
            c3Db).1,
        (leadsGET (some ⟨"e1", none, Role.EMPLOYEE⟩) "ip" 0 c3Query []
          c3Db).2) :=
  leadsGET_no_converted_exclusion ⟨"e1", none, Role.EMPLOYEE⟩ "ip" 0 c3Query
    [] c3Db rfl

end JeevanAyurvedic
